import Mathlib

/-!
Shallow embedding of src/main.py (portfolio backend service).

The repository contains one source file, `main.py`.  It defines a static
case-study dataset with a category filter (`list_case_studies`), a
contact-form handler (`submit_contact`) delegating to an external
persistence collaborator (`database.create_document`, not under src/),
and a diagnostics endpoint (`test_database`) that never fails outward.

Python exceptions are embedded as `Except`; an HTTP handler outcome is an
`Except HttpError _` (4xx = client error, 5xx = server error).  Optional
query/body fields are `Option String`.
-/

namespace Portfolio

/-- A case study record (main.py lines 40-46).  The `category` field is
constrained in the source to the literals "E-commerce", "Lead Gen",
"Local Business", "All"; it is carried here as the plain string the
filter compares against. -/
structure CaseStudy where
  title : String
  category : String
  metric_label : String
  metric_value : String
  budget : Option String
  summary : String
deriving DecidableEq, Repr

/-- Python str.lower() as used by the filter, as a kernel-computable map
over the character list (the compared strings are ASCII, where
Char.toLower agrees with str.lower()). -/
def pyLower (s : String) : String := ⟨s.data.map Char.toLower⟩

/-- The fixed, ordered case-study dataset (main.py lines 48-73). -/
def CASE_STUDIES : List CaseStudy :=
  [ { title := "Soorpriz",
      category := "E-commerce",
      metric_label := "Best ROAS",
      metric_value := "3.6x",
      budget := some "$5.5K",
      summary := "Scaled ROAS while testing creatives and audience stacks" },
    { title := "Dobrosvit",
      category := "Lead Gen",
      metric_label := "Cost per Lead",
      metric_value := "€7",
      budget := none,
      summary := "Generated 70 qualified leads via conversion-optimized funnels" },
    { title := "Fertility Therapy",
      category := "Lead Gen",
      metric_label := "CPL",
      metric_value := "€18.75",
      budget := none,
      summary := "Delivered 8 booked calls through targeted lead gen campaigns" } ]

/-- GET /api/case-studies (main.py lines 75-80).  Python:
`if not category or category.lower() == "all": return CASE_STUDIES`
(`not category` is true for both None and the empty string), otherwise
the order-preserving filter on case-insensitive category equality. -/
def list_case_studies (category : Option String) : List CaseStudy :=
  match category with
  | none => CASE_STUDIES
  | some c =>
      if c = "" || pyLower c = "all" then CASE_STUDIES
      else CASE_STUDIES.filter (fun cs => pyLower cs.category = pyLower c)

/-- A raw JSON contact request body: each field may be present or absent.
FastAPI/pydantic validate it against ContactIn before the handler runs. -/
structure RawContact where
  name : Option String
  email : Option String
  subject : Option String
  message : Option String
  source : Option String
deriving DecidableEq, Repr

/-- The validated contact payload (main.py lines 82-87): four required
string fields, `email` constrained to email syntax, optional `source`. -/
structure ContactIn where
  name : String
  email : String
  subject : String
  message : String
  source : Option String
deriving DecidableEq, Repr

/-- Modelled from the spec: pydantic EmailStr syntax validation (the
EmailStr validator is library code outside src/).  The spec only requires
"syntactically valid email": exactly one "@", non-empty local part, and a
non-empty domain containing an interior dot. -/
def validEmail (s : String) : Bool :=
  let cs := s.data
  let l := cs.takeWhile (fun c => c != '@')
  let d := (cs.dropWhile (fun c => c != '@')).drop 1
  cs.count '@' == 1 && !l.isEmpty && !d.isEmpty &&
    d.contains '.' && d.head? != some '.' && d.getLast? != some '.'

/-- FastAPI request-body validation of ContactIn: runs before the handler
body; a missing required field or an invalid email is rejected with a
client-error response (HTTP 422) and the handler is never entered. -/
def validateContactIn (r : RawContact) : Except String ContactIn :=
  match r.name, r.email, r.subject, r.message with
  | some n, some e, some s, some m =>
      if validEmail e then
        Except.ok { name := n, email := e, subject := s, message := m, source := r.source }
      else Except.error "value is not a valid email address"
  | _, _, _, _ => Except.error "field required"

/-- Modelled from the spec: schemas.ContactMessage (schemas.py is not
under src/).  Per the spec it carries the same fields as the contact
submission; constructing it from an already-validated ContactIn succeeds. -/
structure ContactMessage where
  name : String
  email : String
  subject : String
  message : String
  source : Option String
deriving DecidableEq, Repr

/-- main.py line 93: `ContactMessage(**payload.model_dump())`. -/
def toContactMessage (c : ContactIn) : ContactMessage :=
  { name := c.name, email := c.email, subject := c.subject,
    message := c.message, source := c.source }

/-- An HTTP error outcome (FastAPI HTTPException / validation response):
4xx status = client error, 5xx status = server error. -/
structure HttpError where
  status : Nat
  detail : String
deriving DecidableEq, Repr

/-- The success body of POST /api/contact: {"status": "ok", "id": ...}. -/
structure ContactOk where
  status : String
  id : String
deriving DecidableEq, Repr

/-- A behavior of the persistence collaborator: create_document takes the
collection name and the document, and either returns the inserted id or
raises (Except.error carries str(e)). -/
def DbCreate : Type := String → ContactMessage → Except String String

/-- Modelled from the spec: database.create_document (database.py is not
under src/): "create document in named collection" returning an
identifier; the identifier rendered by the store is a non-empty string
(a MongoDB-style 24-hex-digit object id). -/
def create_document : DbCreate :=
  fun _ _ => Except.ok "65f0a1b2c3d4e5f6a7b8c9d0"

/-- POST /api/contact (main.py lines 89-97), including the framework
validation step that precedes the handler body.  The second component
records every call made to the collaborator's create-document operation,
as (collection, document) pairs, in order.  The handler body is
`try: doc = ContactMessage(**payload.model_dump());
inserted_id = create_document("contactmessage", doc);
return {"status": "ok", "id": inserted_id}
except Exception as e: raise HTTPException(status_code=500, detail=str(e))`. -/
def submit_contact (db : DbCreate) (raw : RawContact) :
    Except HttpError ContactOk × List (String × ContactMessage) :=
  match validateContactIn raw with
  | Except.error msg => (Except.error { status := 422, detail := msg }, [])
  | Except.ok payload =>
      let doc := toContactMessage payload
      match db "contactmessage" doc with
      | Except.ok insertedId =>
          (Except.ok { status := "ok", id := insertedId }, [("contactmessage", doc)])
      | Except.error e =>
          (Except.error { status := 500, detail := e }, [("contactmessage", doc)])

/-- Python slicing str(e)[:50], as a kernel-computable take on the
character list. -/
def pyTake (s : String) (n : Nat) : String := ⟨s.data.take n⟩

/-- A behavior of the imported database handle `db`: `name` is `db.name`
when the attribute exists (hasattr), and `listCollectionNames` is the
outcome of `db.list_collection_names()` (Except.error carries str(e)). -/
structure DbHandle where
  name : Option String
  listCollectionNames : Except String (List String)

/-- A behavior of `from database import db`: the import can raise
ImportError, raise some other exception, or succeed with a handle that is
None or an actual handle. -/
inductive ImportOutcome where
  | importError
  | otherError (msg : String)
  | ok (db : Option DbHandle)

/-- A Python exception as seen by the outer try of test_database:
either an ImportError or any other exception with its str(e). -/
inductive PyErr where
  | importErr
  | exc (msg : String)

/-- The /test response dictionary (main.py lines 102-109).  database_url
and database_name start as None and are overwritten with strings at the
end, hence Option String. -/
structure DiagResponse where
  backend : String
  database : String
  database_url : Option String
  database_name : Option String
  connection_status : String
  collections : List String
deriving DecidableEq, Repr

/-- The outer try block of test_database (main.py lines 111-130): import
the handle, and if it is present and non-None, probe it, with the inner
try around list_collection_names.  A raising path is Except.error. -/
def test_database_try (imp : ImportOutcome) (r0 : DiagResponse) :
    Except PyErr DiagResponse :=
  match imp with
  | ImportOutcome.importError => Except.error PyErr.importErr
  | ImportOutcome.otherError e => Except.error (PyErr.exc e)
  | ImportOutcome.ok none =>
      Except.ok { r0 with database := "⚠️  Available but not initialized" }
  | ImportOutcome.ok (some db) =>
      let r := { r0 with
        database := "✅ Available",
        database_url := some "✅ Configured",
        database_name := some (match db.name with
          | some n => n
          | none => "✅ Connected"),
        connection_status := "Connected" }
      match db.listCollectionNames with
      | Except.ok collections =>
          Except.ok { r with
            collections := collections.take 10,
            database := "✅ Connected & Working" }
      | Except.error e =>
          Except.ok { r with
            database := "⚠️  Connected but Error: " ++ pyTake e 50 }

/-- GET /test (main.py lines 99-141).  `envUrl` / `envName` say whether
the DATABASE_URL / DATABASE_NAME environment variables are set.  Every
exception of the try block is caught and rendered into the `database`
status string, and the two env fields are overwritten unconditionally at
the end, so the handler always returns a response. -/
def test_database (imp : ImportOutcome) (envUrl envName : Bool) : DiagResponse :=
  let r0 : DiagResponse :=
    { backend := "✅ Running",
      database := "❌ Not Available",
      database_url := none,
      database_name := none,
      connection_status := "Not Connected",
      collections := [] }
  let r1 :=
    match test_database_try imp r0 with
    | Except.ok r => r
    | Except.error PyErr.importErr =>
        { r0 with database := "❌ Database module not found (run enable-database first)" }
    | Except.error (PyErr.exc e) =>
        { r0 with database := "❌ Error: " ++ pyTake e 50 }
  { r1 with
    database_url := some (if envUrl then "✅ Set" else "❌ Not Set"),
    database_name := some (if envName then "✅ Set" else "❌ Not Set") }

end Portfolio

namespace Portfolio

/-- Claim C4: for a category parameter that is absent or any case variant
of "all", list_case_studies returns the full fixed case-study list in its
defined order. -/
theorem list_case_studies_all_passthrough (category : Option String)
    (h : category = none ∨ ∃ s, category = some s ∧ pyLower s = "all") :
    list_case_studies category = CASE_STUDIES := by
  rcases h with h | ⟨s, hs, hl⟩
  · simp [h, list_case_studies]
  · simp [hs, list_case_studies, hl]

/-- Witness for C4 at the concrete case variant "AlL". -/
theorem list_case_studies_all_passthrough_witness :
    list_case_studies (some "AlL") = CASE_STUDIES :=
  list_case_studies_all_passthrough (some "AlL")
    (Or.inr ⟨"AlL", rfl, by decide⟩)

/-- Counterexample to claim C3 as stated: the empty string is a non-absent
category that is not a case variant of "all", yet list_case_studies
returns the full list rather than the (empty) case-insensitive filter. -/
theorem list_case_studies_empty_category_not_filtered :
    list_case_studies (some "") ≠
      CASE_STUDIES.filter (fun cs => pyLower cs.category = pyLower "") := by
  decide

/-- Claim C3 (amended): for every NON-EMPTY category string that is not a
case variant of "all", list_case_studies returns exactly the
order-preserving subsequence of CASE_STUDIES whose category matches
case-insensitively (empty when nothing matches, with no error). -/
theorem list_case_studies_filters (c : String) (hne : c ≠ "")
    (hall : pyLower c ≠ "all") :
    list_case_studies (some c) =
      CASE_STUDIES.filter (fun cs => pyLower cs.category = pyLower c) := by
  simp [list_case_studies, hne, hall]

/-- Witness for C3 at the concrete category "lead gen". -/
theorem list_case_studies_filters_witness :
    "lead gen" ≠ "" ∧ pyLower "lead gen" ≠ "all" ∧
      list_case_studies (some "lead gen") =
        CASE_STUDIES.filter (fun cs => pyLower cs.category = pyLower "lead gen") :=
  ⟨by decide, by decide, list_case_studies_filters "lead gen" (by decide) (by decide)⟩

/-- Claim C10: the empty-string category is treated as no filter: the
result is the full list, identical to the absent-parameter result. -/
theorem list_case_studies_empty_category :
    list_case_studies (some "") = CASE_STUDIES ∧
      list_case_studies (some "") = list_case_studies none := by
  exact ⟨rfl, rfl⟩

/-- A non-empty string appended to anything is non-empty. -/
theorem append_ne_empty_left (a b : String) (ha : a ≠ "") : a ++ b ≠ "" := by
  intro h
  apply ha
  have hd := congrArg String.data h
  cases a with
  | mk la =>
    cases b with
    | mk lb =>
      simp [String.append] at hd
      simp [hd.1]

/-- Claim C1: a malformed contact payload (required field missing or email
not syntactically valid) is rejected with a client error (HTTP 422) and no
call to the persistence collaborator is made, for every collaborator
behavior. -/
theorem submit_contact_rejects_malformed (db : DbCreate) (raw : RawContact)
    (msg : String) (h : validateContactIn raw = Except.error msg) :
    (submit_contact db raw).2 = [] ∧
      ∃ e, (submit_contact db raw).1 = Except.error e ∧
        400 ≤ e.status ∧ e.status < 500 ∧ e.detail = msg := by
  refine ⟨?_, { status := 422, detail := msg }, ?_, by norm_num, by norm_num, rfl⟩
  · simp [submit_contact, h]
  · simp [submit_contact, h]

/-- Witness for C1: a payload whose email field is absent. -/
theorem submit_contact_rejects_malformed_witness :
    (submit_contact create_document
        { name := some "Leo", email := none, subject := some "Hi",
          message := some "Hello", source := none }).2 = [] ∧
      ∃ e, (submit_contact create_document
        { name := some "Leo", email := none, subject := some "Hi",
          message := some "Hello", source := none }).1 = Except.error e ∧
        400 ≤ e.status ∧ e.status < 500 ∧ e.detail = "field required" :=
  submit_contact_rejects_malformed create_document
    { name := some "Leo", email := none, subject := some "Hi",
      message := some "Hello", source := none } "field required" rfl

/-- Claim C7: a payload with a syntactically invalid email produces no call
to the persistence collaborator, for every collaborator behavior. -/
theorem submit_contact_invalid_email_no_write (db : DbCreate)
    (raw : RawContact) (s : String) (he : raw.email = some s)
    (hv : validEmail s = false) : (submit_contact db raw).2 = [] := by
  obtain ⟨n, e, sj, m, src⟩ := raw
  simp only at he
  subst he
  cases n <;> cases sj <;> cases m <;>
    simp [submit_contact, validateContactIn, hv]

/-- Witness for C7: email "not-an-email" has no "@" hence is invalid. -/
theorem submit_contact_invalid_email_no_write_witness :
    validEmail "not-an-email" = false ∧
      (submit_contact create_document
        { name := some "Leo", email := some "not-an-email",
          subject := some "Hi", message := some "Hello", source := none }).2 = [] :=
  ⟨by decide,
    submit_contact_invalid_email_no_write create_document
      { name := some "Leo", email := some "not-an-email",
        subject := some "Hi", message := some "Hello", source := none }
      "not-an-email" rfl (by decide)⟩

/-- Claim C2: a well-formed payload makes exactly one create-document call,
against the collection "contactmessage", and returns status "ok" with a
non-empty identifier (the collaborator modelled from the spec). -/
theorem submit_contact_valid_inserts_once (raw : RawContact) (c : ContactIn)
    (h : validateContactIn raw = Except.ok c) :
    ∃ insertedId, insertedId ≠ "" ∧
      submit_contact create_document raw =
        (Except.ok { status := "ok", id := insertedId },
          [("contactmessage", toContactMessage c)]) := by
  refine ⟨"65f0a1b2c3d4e5f6a7b8c9d0", by decide, ?_⟩
  simp [submit_contact, h, create_document]

/-- Witness for C2: a fully well-formed payload. -/
theorem submit_contact_valid_inserts_once_witness :
    ∃ insertedId, insertedId ≠ "" ∧
      submit_contact create_document
        { name := some "Leo", email := some "leo@example.com",
          subject := some "Hi", message := some "Hello", source := none } =
        (Except.ok { status := "ok", id := insertedId },
          [("contactmessage",
            { name := "Leo", email := "leo@example.com", subject := "Hi",
              message := "Hello", source := none })]) :=
  submit_contact_valid_inserts_once
    { name := some "Leo", email := some "leo@example.com",
      subject := some "Hi", message := some "Hello", source := none }
    { name := "Leo", email := "leo@example.com", subject := "Hi",
      message := "Hello", source := none }
    (by simp [validateContactIn, validEmail])

/-- Claim C5: when the collaborator raises on a valid payload, the handler
fails with a server error (HTTP 500) whose detail is the underlying
message, and at most one insert attempt is made. -/
theorem submit_contact_persistence_error (db : DbCreate) (raw : RawContact)
    (c : ContactIn) (m : String) (hv : validateContactIn raw = Except.ok c)
    (hdb : db "contactmessage" (toContactMessage c) = Except.error m) :
    submit_contact db raw =
        (Except.error { status := 500, detail := m },
          [("contactmessage", toContactMessage c)]) ∧
      (submit_contact db raw).2.length ≤ 1 := by
  constructor <;> simp [submit_contact, hv, hdb]

/-- Witness for C5: a collaborator that always raises "boom". -/
theorem submit_contact_persistence_error_witness :
    submit_contact (fun _ _ => Except.error "boom")
        { name := some "Leo", email := some "leo@example.com",
          subject := some "Hi", message := some "Hello", source := none } =
        (Except.error { status := 500, detail := "boom" },
          [("contactmessage",
            { name := "Leo", email := "leo@example.com", subject := "Hi",
              message := "Hello", source := none })]) ∧
      (submit_contact (fun _ _ => Except.error "boom")
        { name := some "Leo", email := some "leo@example.com",
          subject := some "Hi", message := some "Hello", source := none }).2.length ≤ 1 :=
  submit_contact_persistence_error (fun _ _ => Except.error "boom")
    { name := some "Leo", email := some "leo@example.com",
      subject := some "Hi", message := some "Hello", source := none }
    { name := "Leo", email := "leo@example.com", subject := "Hi",
      message := "Hello", source := none }
    "boom" (by simp [validateContactIn, validEmail]) rfl

/-- Claim C6: the /test handler is total over every collaborator behavior
(module import failing either way, handle None, live handle with
enumeration succeeding or raising) and every environment: it always
returns a response whose database field is a non-empty descriptive status
string, never an exception. -/
theorem test_database_always_reports (imp : ImportOutcome)
    (envUrl envName : Bool) :
    (test_database imp envUrl envName).backend = "✅ Running" ∧
      (test_database imp envUrl envName).database ≠ "" := by
  cases imp with
  | importError =>
      refine ⟨rfl, ?_⟩
      simp only [test_database, test_database_try]
      decide
  | otherError e =>
      refine ⟨rfl, ?_⟩
      simp only [test_database, test_database_try]
      exact append_ne_empty_left _ _ (by decide)
  | ok dbOpt =>
      cases dbOpt with
      | none =>
          refine ⟨rfl, ?_⟩
          simp only [test_database, test_database_try]
          decide
      | some h =>
          obtain ⟨nm, lcn⟩ := h
          cases lcn with
          | ok cols =>
              refine ⟨rfl, ?_⟩
              simp only [test_database, test_database_try]
              decide
          | error e =>
              refine ⟨rfl, ?_⟩
              simp only [test_database, test_database_try]
              exact append_ne_empty_left _ _ (by decide)

/-- Claim C8: with a live, initialized handle, a successful enumeration
yields a collections field that is the 10-truncated enumerated list — a
prefix of it of length at most 10 — while a failing enumeration yields the
partial-failure status string and an empty collections field. -/
theorem test_database_collections (h : DbHandle) (envUrl envName : Bool) :
    (∀ cols, h.listCollectionNames = Except.ok cols →
        (test_database (ImportOutcome.ok (some h)) envUrl envName).collections
            = cols.take 10 ∧
          (test_database (ImportOutcome.ok (some h)) envUrl envName).collections
            <+: cols ∧
          (test_database (ImportOutcome.ok (some h)) envUrl envName).collections.length
            ≤ 10) ∧
      (∀ e, h.listCollectionNames = Except.error e →
        (test_database (ImportOutcome.ok (some h)) envUrl envName).collections
            = [] ∧
          (test_database (ImportOutcome.ok (some h)) envUrl envName).database
            = "⚠️  Connected but Error: " ++ pyTake e 50) := by
  constructor
  · intro cols hc
    have hfield :
        (test_database (ImportOutcome.ok (some h)) envUrl envName).collections
          = cols.take 10 := by
      simp [test_database, test_database_try, hc]
    refine ⟨hfield, ?_, ?_⟩
    · rw [hfield]; exact List.take_prefix 10 cols
    · rw [hfield, List.length_take]; exact Nat.min_le_left 10 cols.length
  · intro e he
    constructor <;> simp [test_database, test_database_try, he]

/-- Witness for C8: one handle whose enumeration succeeds with two names,
one whose enumeration raises "timed out". -/
theorem test_database_collections_witness :
    (test_database
        (ImportOutcome.ok (some
          { name := some "portfolio",
            listCollectionNames := Except.ok ["contactmessage", "users"] }))
        true false).collections = ["contactmessage", "users"].take 10 ∧
      (test_database
        (ImportOutcome.ok (some
          { name := some "portfolio",
            listCollectionNames := Except.error "timed out" }))
        false true).collections = [] :=
  ⟨((test_database_collections
      { name := some "portfolio",
        listCollectionNames := Except.ok ["contactmessage", "users"] }
      true false).1 ["contactmessage", "users"] rfl).1,
    ((test_database_collections
      { name := some "portfolio",
        listCollectionNames := Except.error "timed out" }
      false true).2 "timed out" rfl).1⟩

/-- Claim C9: the database_url and database_name fields of the /test
response are the same for any two collaborator behaviors under the same
environment-variable presence, and equal the presence indicators. -/
theorem test_database_env_fields (imp1 imp2 : ImportOutcome)
    (envUrl envName : Bool) :
    (test_database imp1 envUrl envName).database_url
        = (test_database imp2 envUrl envName).database_url ∧
      (test_database imp1 envUrl envName).database_name
        = (test_database imp2 envUrl envName).database_name ∧
      (test_database imp1 envUrl envName).database_url
        = some (if envUrl then "✅ Set" else "❌ Not Set") ∧
      (test_database imp1 envUrl envName).database_name
        = some (if envName then "✅ Set" else "❌ Not Set") := by
  refine ⟨?_, ?_, ?_, ?_⟩ <;> simp [test_database]

end Portfolio
